import Mathlib

/-
Shallow embedding of `src/main.py` from c3-sdk-python-example-eyescream.

The module orchestrates: accept an image over RPC, write it to a canonical
input path, call an external augmentation routine and an external training
script, then gather the produced weights and augmented images into a
key/value state (`c3.state`).

Modelling choices, each traceable to the source:
  - Raised Python exceptions are an `Option PyError` component of each
    operation's result; side effects performed before the raise persist in
    the returned filesystem, as they do in Python.
  - The filesystem is a record of a directory list and an association list
    of file paths to byte contents; `os.path.sep` is fixed to "/" (POSIX).
  - Relative paths (used by the `os.makedirs` calls in `initState`) resolve
    against the current working directory `cwd`; the module-level absolute
    paths are anchored at `srcDir`, the directory of the source file
    (`os.path.dirname(os.path.abspath(__file__))`).
  - `PIL.Image` is opaque: an image is a record of the result of its
    `verify()` call (a Python value or a raised exception) and an encoding
    function from a format name to bytes.  `Image.open` (`imageFromBytes`)
    is an external decoder passed in as a parameter `decode`.
  - `main.py` never imports `subprocess`; evaluating `subprocess.run` in
    `acceptImage` therefore raises `NameError` at that line, before any
    training process can start.  The would-be exit code of the external
    training script is still a parameter (`trainerExit`) so that the
    specified behaviour can be stated against the embedding.
  - In `initState`, the expression
    `augAbsPath + os.path.sep + idx + standardImgFormat` adds the `str`
    built from the first two operands to the `int` loop index `idx`; in
    Python `str + int` raises `TypeError`.  The expression is embedded with
    `pyAdd` over tagged Python values so this behaviour is visible.
-/

namespace Eyescream

/-- Bytes of a file or of a serialized image, as a list of byte values. -/
abbrev Bytes := List Nat

/-- The Python values the embedded expressions can produce: strings,
integers, booleans and `None`. -/
inductive PyVal where
  | vstr (s : String)
  | vint (n : Nat)
  | vbool (b : Bool)
  | vnone
  deriving DecidableEq, Repr

/-- Python truthiness of a value, as used by `if not img.verify()`. -/
def truthy : PyVal → Bool
  | .vstr s => !(s == "")
  | .vint n => !(n == 0)
  | .vbool b => b
  | .vnone => false

/-- The exceptions this module can raise.  The first four are the
module-level exception objects of `main.py`; the last three are the
built-in Python exceptions its code can trigger. -/
inductive PyError where
  | pillowImageRequired
  | invalidImage
  | c3Required
  | trainingFailed
  | typeError
  | nameError
  | fileNotFound
  deriving DecidableEq, Repr

/-- Python `+` on the value combinations the embedded expressions reach:
`str + str` concatenates, `int + int` adds, and mixing `str` with `int`
(the combination evaluated in `initState`'s filename expression) raises
`TypeError`.  Coercions not reached by this module are not modelled. -/
def pyAdd : PyVal → PyVal → Except PyError PyVal
  | .vstr a, .vstr b => .ok (.vstr (a ++ b))
  | .vint a, .vint b => .ok (.vint (a + b))
  | _, _ => .error .typeError

/-- `os.path.sep` on the POSIX platform the paths assume. -/
def sep : String := "/"

def standardImgFormat : String := "JPEG"

def tmpDir : String := "tmp"

def libDir : String := "lib"

def inputRelPath : String := tmpDir ++ sep ++ "input"

def augRelPath : String := tmpDir ++ sep ++ "aug_64x64"

def unaugRelPath : String := tmpDir ++ sep ++ "unaug_64x64"

def networkRelPath : String := tmpDir ++ sep ++ "network"

/-- `inputAbsPath`, anchored at the source file's directory `srcDir`. -/
def inputAbsPath (srcDir : String) : String := srcDir ++ sep ++ inputRelPath

def augAbsPath (srcDir : String) : String := srcDir ++ sep ++ augRelPath

def unaugAbsPath (srcDir : String) : String := srcDir ++ sep ++ unaugRelPath

def networkAbsPath (srcDir : String) : String := srcDir ++ sep ++ networkRelPath

def oldNetworkAbsPath (srcDir : String) : String :=
  networkAbsPath srcDir ++ sep ++ "old.net"

def newNetworkAbsPath (srcDir : String) : String :=
  networkAbsPath srcDir ++ sep ++ "adversarial.net"

/-- The path `acceptImage` saves the standardized input image to:
`inputAbsPath + os.path.sep + "input." + standardImgFormat`. -/
def inputImageAbsPath (srcDir : String) : String :=
  inputAbsPath srcDir ++ sep ++ "input." ++ standardImgFormat

/-- `c3.state`: a key/value state with the two recognized keys `network`
(bytes of model weights) and `aug_images` (ordered sequence of image byte
blobs); a field of `none` models an absent key. -/
structure C3State where
  network : Option Bytes
  aug_images : Option (List Bytes)
  deriving DecidableEq, Repr

/-- The filesystem: a list of existing directories and an association list
from file paths to byte contents. -/
structure FS where
  dirs : List String
  files : List (String × Bytes)
  deriving DecidableEq, Repr

def emptyFS : FS := ⟨[], []⟩

/-- Reading a file: the first association-list entry for the path. -/
def FS.readFile (fs : FS) (p : String) : Option Bytes :=
  (fs.files.find? (fun e => e.1 == p)).map (fun e => e.2)

/-- `open(p, 'wb+')` followed by a full write: create or truncate. -/
def FS.writeFile (fs : FS) (p : String) (b : Bytes) : FS :=
  { fs with files := (p, b) :: fs.files.filter (fun e => !(e.1 == p)) }

/-- `os.path.exists`: true for a directory or a file at the path. -/
def FS.pathExists (fs : FS) (p : String) : Bool :=
  fs.dirs.contains p || fs.files.any (fun e => e.1 == p)

/-- Whether a path string is absolute (begins with the separator). -/
def isAbsolute (p : String) : Bool :=
  match p.data with
  | [] => false
  | c :: _ => c == '/'

/-- Resolution of a path against the current working directory, as the OS
performs it for the relative paths passed to `os.path.exists` and
`os.makedirs`. -/
def resolve (cwd p : String) : String :=
  if isAbsolute p then p else cwd ++ sep ++ p

/-- `if not os.path.exists(p): os.makedirs(p)` with `p` a relative path. -/
def makedirsIfMissing (cwd p : String) (fs : FS) : FS :=
  let q := resolve cwd p
  if fs.pathExists q then fs else { fs with dirs := q :: fs.dirs }

/-- The four conditional `os.makedirs` calls of `initState`, in source
order. -/
def mkAllDirs (cwd : String) (fs : FS) : FS :=
  makedirsIfMissing cwd networkRelPath
    (makedirsIfMissing cwd unaugRelPath
      (makedirsIfMissing cwd augRelPath
        (makedirsIfMissing cwd inputRelPath fs)))

/-- An opaque PIL image handle: the outcome of `verify()` (a returned
Python value, or a raised exception) and the bytes `save` produces for a
given format name. -/
structure PImage where
  verifyRet : Except PyError PyVal
  encode : String → Bytes

/-- The validation of `acceptImage` succeeds exactly when `verify()`
returns, without raising, a value that is truthy. -/
def passesVerify (i : PImage) : Bool :=
  match i.verifyRet with
  | .ok v => truthy v
  | .error _ => false

/-- `writeBytesToFile` of `main.py`. -/
def writeBytesToFile (b : Bytes) (fileName : String) (fs : FS) : FS :=
  fs.writeFile fileName b

/-- `readBytesFromFile` of `main.py` (`open(filename, "rb+")` raises
`FileNotFoundError` for a missing file). -/
def readBytesFromFile (filename : String) (fs : FS) : Except PyError Bytes :=
  match fs.readFile filename with
  | some b => .ok b
  | none => .error .fileNotFound

/-- `im.save(dest)` for a rehydrated image.  This line of `initState` is
unreachable (the filename expression before it raises `TypeError`), so the
external format inference of PIL's extension-based `save` is modelled
simply as encoding in the standard format. -/
def imSave (im : PImage) (dest : String) (fs : FS) : FS :=
  fs.writeFile dest (im.encode standardImgFormat)

/-- The destination-filename expression of `initState`'s rehydration loop,
`augAbsPath + os.path.sep + idx + standardImgFormat`, with Python's `+`
evaluated left to right over the tagged values: the first two operands are
strings, and adding the integer index `idx` to their concatenation raises
`TypeError`. -/
def rehydrateDest (srcDir : String) (idx : Nat) : Except PyError PyVal := do
  let a ← pyAdd (.vstr (augAbsPath srcDir)) (.vstr sep)
  let b ← pyAdd a (.vint idx)
  pyAdd b (.vstr standardImgFormat)

/-- The body of `for idx in range(len(c3.state[augImagesKey])): ...` in
`initState`: decode each blob, build the destination name, save.  An
exception aborts the loop, keeping the effects performed so far. -/
def rehydrateLoop (decode : Bytes → PImage) (srcDir : String) :
    Nat → List Bytes → FS → Option PyError × FS
  | _, [], fs => (none, fs)
  | idx, b :: rest, fs =>
    let im := decode b
    match rehydrateDest srcDir idx with
    | .error e => (some e, fs)
    | .ok (.vstr dest) => rehydrateLoop decode srcDir (idx + 1) rest (imSave im dest fs)
    | .ok _ => (some .typeError, fs)

/-- The rehydration step of `initState`: runs only when the `aug_images`
key is present. -/
def rehydrateAug (decode : Bytes → PImage) (srcDir : String) (st : C3State)
    (fs : FS) : Option PyError × FS :=
  match st.aug_images with
  | none => (none, fs)
  | some imgs => rehydrateLoop decode srcDir 0 imgs fs

/-- `initState` of `main.py`: fail with `C3Required` when the handle is
absent; otherwise create the four working directories if missing (relative
paths, resolved against `cwd`), rehydrate `aug_images` when present, and
write the `network` bytes (or an empty byte sequence when the key is
absent) to the old-network file path (absolute, anchored at `srcDir`). -/
def initState (decode : Bytes → PImage) (cwd srcDir : String)
    (c3state : Option C3State) (fs : FS) : Option PyError × FS :=
  match c3state with
  | none => (some .c3Required, fs)
  | some st =>
    let fs1 := mkAllDirs cwd fs
    match rehydrateAug decode srcDir st fs1 with
    | (some e, fs2) => (some e, fs2)
    | (none, fs2) =>
      let network := st.network.getD []
      (none, writeBytesToFile network (oldNetworkAbsPath srcDir) fs2)

/-- Whether `sub` occurs at the head of `l`. -/
def leadsChars : List Char → List Char → Bool
  | [], _ => true
  | _ :: _, [] => false
  | a :: as, b :: bs => a == b && leadsChars as bs

/-- Whether `sub` occurs contiguously anywhere in `l` (Python's `in` on
strings). -/
def containsSeq (sub : List Char) : List Char → Bool
  | [] => sub.isEmpty
  | c :: cs => leadsChars sub (c :: cs) || containsSeq sub cs

/-- The final path component, as `os.walk` reports file names. -/
def basenameChars (l : List Char) : List Char :=
  l.foldl (fun acc c => if c = '/' then [] else acc ++ [c]) []

/-- Whether `p` lies under the directory `d` (in the `os.walk` tree rooted
at `d`). -/
def underDir (d p : String) : Bool :=
  leadsChars (d ++ sep).data p.data

/-- The file filter of `gatherState`'s walk: a file under the augmented
directory whose name contains `"." + standardImgFormat` as a substring. -/
def isAugJPEGFile (srcDir p : String) : Bool :=
  underDir (augAbsPath srcDir) p &&
    containsSeq ("." ++ standardImgFormat).data (basenameChars p.data)

/-- `gatherState` of `main.py`: read the new weights file fully
(`FileNotFoundError` when absent) into the `network` key, then rebuild
`aug_images` from every file under the augmented directory whose name
contains the standard suffix, in traversal order.  No file is written. -/
def gatherState (srcDir : String) (st : C3State) (fs : FS) :
    Option PyError × C3State :=
  match fs.readFile (newNetworkAbsPath srcDir) with
  | none => (some .fileNotFound, st)
  | some wts =>
    let st1 : C3State := { st with network := some wts }
    let augs := (fs.files.filter (fun e => isAugJPEGFile srcDir e.1)).map (fun e => e.2)
    (none, { st1 with aug_images := some augs })

/-- `acceptImage` of `main.py`.  `gdGen` is the external augmentation
routine (an arbitrary filesystem transformation: its return value is not
inspected), `trainerExit` the exit code the external training script would
return.  The source never imports `subprocess`, so after writing the input
image and running the augmentation, evaluating `subprocess.run` raises
`NameError`; the exit-code check, `TrainingFailed`, and the `gatherState`
call behind it are unreachable. -/
def acceptImage (srcDir : String) (gdGen : FS → FS) (img : Option PImage)
    (trainerExit : Int) (st : C3State) (fs : FS) :
    Option PyError × C3State × FS :=
  match img with
  | none => (some .pillowImageRequired, st, fs)
  | some i =>
    if passesVerify i then
      let fs1 := fs.writeFile (inputImageAbsPath srcDir) (i.encode standardImgFormat)
      let fs2 := gdGen fs1
      (some .nameError, st, fs2)
    else (some .invalidImage, st, fs)

/-- The round trip of the spec's §8: rehydrate a persisted state at
startup, then immediately gather state again.  A raised exception
propagates, leaving the state at its pre-call value. -/
def rehydrateThenGather (decode : Bytes → PImage) (cwd srcDir : String)
    (st : C3State) (fs : FS) : Option PyError × C3State :=
  match initState decode cwd srcDir (some st) fs with
  | (some e, _) => (some e, st)
  | (none, fs1) => gatherState srcDir st fs1

/-- A concrete external decoder, for closed evaluations. -/
def dec0 : Bytes → PImage := fun b => ⟨.ok .vnone, fun _ => b⟩

/-- An image whose `verify()` returns `True`. -/
def imgTruthy : PImage := ⟨.ok (.vbool true), fun _ => [1]⟩

/-- An image whose `verify()` returns `None`, PIL's success value. -/
def imgVerifyNone : PImage := ⟨.ok .vnone, fun _ => [2]⟩

/-- An image whose `verify()` raises. -/
def imgRaises : PImage := ⟨.error .typeError, fun _ => [3]⟩

def st0 : C3State := ⟨none, none⟩

/-- The four working directories as `initState` creates them: the relative
paths, resolved against the current working directory. -/
def theFourDirs (cwd : String) : List String :=
  [resolve cwd inputRelPath, resolve cwd augRelPath,
   resolve cwd unaugRelPath, resolve cwd networkRelPath]

/-! ### Helper lemmas -/

theorem rehydrateDest_typeError (srcDir : String) (idx : Nat) :
    rehydrateDest srcDir idx = .error .typeError := rfl

theorem rehydrateLoop_nil (decode : Bytes → PImage) (srcDir : String)
    (idx : Nat) (fs : FS) : rehydrateLoop decode srcDir idx [] fs = (none, fs) := rfl

theorem rehydrateLoop_cons (decode : Bytes → PImage) (srcDir : String)
    (idx : Nat) (b : Bytes) (rest : List Bytes) (fs : FS) :
    rehydrateLoop decode srcDir idx (b :: rest) fs = (some .typeError, fs) := rfl

theorem initState_aug_absent (decode : Bytes → PImage) (cwd srcDir : String)
    (nw : Option Bytes) (fs : FS) :
    initState decode cwd srcDir (some ⟨nw, none⟩) fs =
      (none, writeBytesToFile (nw.getD []) (oldNetworkAbsPath srcDir) (mkAllDirs cwd fs)) := rfl

theorem initState_aug_empty (decode : Bytes → PImage) (cwd srcDir : String)
    (nw : Option Bytes) (fs : FS) :
    initState decode cwd srcDir (some ⟨nw, some []⟩) fs =
      (none, writeBytesToFile (nw.getD []) (oldNetworkAbsPath srcDir) (mkAllDirs cwd fs)) := rfl

theorem initState_aug_cons (decode : Bytes → PImage) (cwd srcDir : String)
    (nw : Option Bytes) (b : Bytes) (rest : List Bytes) (fs : FS) :
    initState decode cwd srcDir (some ⟨nw, some (b :: rest)⟩) fs =
      (some .typeError, mkAllDirs cwd fs) := rfl

theorem readFile_writeFile_self (fs : FS) (p : String) (b : Bytes) :
    (fs.writeFile p b).readFile p = some b := by
  simp [FS.readFile, FS.writeFile]

theorem dirs_writeFile (fs : FS) (p : String) (b : Bytes) :
    (fs.writeFile p b).dirs = fs.dirs := rfl

theorem files_makedirsIfMissing (cwd p : String) (fs : FS) :
    (makedirsIfMissing cwd p fs).files = fs.files := by
  simp only [makedirsIfMissing]
  split <;> rfl

theorem files_mkAllDirs (cwd : String) (fs : FS) :
    (mkAllDirs cwd fs).files = fs.files := by
  simp [mkAllDirs, files_makedirsIfMissing]

theorem pathExists_makedirsIfMissing_self (cwd p : String) (fs : FS) :
    (makedirsIfMissing cwd p fs).pathExists (resolve cwd p) = true := by
  simp only [makedirsIfMissing]
  split
  · assumption
  · simp [FS.pathExists]

theorem pathExists_iff (fs : FS) (x : String) :
    fs.pathExists x = true ↔ x ∈ fs.dirs ∨ ∃ e ∈ fs.files, e.1 = x := by
  simp [FS.pathExists, List.any_eq_true]

theorem pathExists_makedirsIfMissing_mono (cwd p x : String) (fs : FS)
    (h : fs.pathExists x = true) :
    (makedirsIfMissing cwd p fs).pathExists x = true := by
  rw [pathExists_iff] at h
  simp only [makedirsIfMissing]
  split
  · exact pathExists_iff _ _ |>.mpr h
  · rw [pathExists_iff]
    rcases h with h1 | h2
    · exact Or.inl (List.mem_cons_of_mem _ h1)
    · exact Or.inr h2

theorem pathExists_writeFile_mono (p x : String) (b : Bytes) (fs : FS)
    (h : fs.pathExists x = true) :
    (fs.writeFile p b).pathExists x = true := by
  rw [pathExists_iff] at h ⊢
  simp only [FS.writeFile]
  rcases h with h1 | h2
  · exact Or.inl h1
  · obtain ⟨e, he, hx⟩ := h2
    refine Or.inr ?_
    by_cases hep : e.1 = p
    · exact ⟨(p, b), List.mem_cons_self _ _, by rw [← hep, hx]⟩
    · refine ⟨e, List.mem_cons_of_mem _ (List.mem_filter.mpr ⟨he, ?_⟩), hx⟩
      simp [beq_eq_false_iff_ne.mpr hep]

theorem makedirsIfMissing_id (cwd p : String) (fs : FS)
    (h : fs.pathExists (resolve cwd p) = true) :
    makedirsIfMissing cwd p fs = fs := by
  simp [makedirsIfMissing, h]

theorem mkAllDirs_pathExists (cwd : String) (fs : FS) :
    ((mkAllDirs cwd fs).pathExists (resolve cwd inputRelPath) = true) ∧
    ((mkAllDirs cwd fs).pathExists (resolve cwd augRelPath) = true) ∧
    ((mkAllDirs cwd fs).pathExists (resolve cwd unaugRelPath) = true) ∧
    ((mkAllDirs cwd fs).pathExists (resolve cwd networkRelPath) = true) := by
  simp only [mkAllDirs]
  refine ⟨?_, ?_, ?_, ?_⟩
  · exact pathExists_makedirsIfMissing_mono _ _ _ _
      (pathExists_makedirsIfMissing_mono _ _ _ _
        (pathExists_makedirsIfMissing_mono _ _ _ _
          (pathExists_makedirsIfMissing_self _ _ _)))
  · exact pathExists_makedirsIfMissing_mono _ _ _ _
      (pathExists_makedirsIfMissing_mono _ _ _ _
        (pathExists_makedirsIfMissing_self _ _ _))
  · exact pathExists_makedirsIfMissing_mono _ _ _ _
      (pathExists_makedirsIfMissing_self _ _ _)
  · exact pathExists_makedirsIfMissing_self _ _ _

theorem mkAllDirs_id (cwd : String) (fs : FS)
    (h1 : fs.pathExists (resolve cwd inputRelPath) = true)
    (h2 : fs.pathExists (resolve cwd augRelPath) = true)
    (h3 : fs.pathExists (resolve cwd unaugRelPath) = true)
    (h4 : fs.pathExists (resolve cwd networkRelPath) = true) :
    mkAllDirs cwd fs = fs := by
  simp [mkAllDirs, makedirsIfMissing_id, h1, h2, h3, h4]

theorem str_append_cancel_left {a x y : String} (h : a ++ x = a ++ y) : x = y := by
  have hd := congrArg String.data h
  rw [String.data_append, String.data_append] at hd
  exact String.ext (List.append_cancel_left hd)

theorem str_append_cancel_right {x y s : String} (h : x ++ s = y ++ s) : x = y := by
  have hd := congrArg String.data h
  rw [String.data_append, String.data_append] at hd
  exact String.ext (List.append_cancel_right hd)

theorem resolve_rel_eq_abs_iff (cwd srcDir r : String) (hr : isAbsolute r = false) :
    resolve cwd r = srcDir ++ sep ++ r ↔ cwd = srcDir := by
  constructor
  · intro h
    rw [resolve, hr] at h
    simp only [Bool.false_eq_true, if_false] at h
    exact str_append_cancel_right (str_append_cancel_right (by
      simpa [String.append_assoc] using h))
  · intro h
    simp [resolve, hr, h]

theorem dirs_all_makedirsIfMissing (cwd p : String) (fs : FS) (P : String → Bool)
    (hall : fs.dirs.all P = true) (hp : P (resolve cwd p) = true) :
    (makedirsIfMissing cwd p fs).dirs.all P = true := by
  simp only [makedirsIfMissing]
  split
  · exact hall
  · simp [List.all_cons, hp, hall]

theorem dirs_all_mkAllDirs (cwd : String) (fs : FS) (P : String → Bool)
    (hall : fs.dirs.all P = true)
    (h1 : P (resolve cwd inputRelPath) = true)
    (h2 : P (resolve cwd augRelPath) = true)
    (h3 : P (resolve cwd unaugRelPath) = true)
    (h4 : P (resolve cwd networkRelPath) = true) :
    (mkAllDirs cwd fs).dirs.all P = true := by
  simp only [mkAllDirs]
  exact dirs_all_makedirsIfMissing _ _ _ _
    (dirs_all_makedirsIfMissing _ _ _ _
      (dirs_all_makedirsIfMissing _ _ _ _
        (dirs_all_makedirsIfMissing _ _ _ _ hall h1) h2) h3) h4

/-! ### Claim theorems -/

/-- Claim C6: for the input `None`, `acceptImage` always raises
`PillowImageRequired`, leaves the persisted state unchanged, and performs
no filesystem writes. -/
theorem acceptImage_none_raises (srcDir : String) (gdGen : FS → FS)
    (te : Int) (st : C3State) (fs : FS) :
    acceptImage srcDir gdGen none te st fs = (some .pillowImageRequired, st, fs) := rfl

/-- Claim C2: for every non-`None` image handle whose verification fails
(`verify()` raises, or returns a falsy value), `acceptImage` raises
`InvalidImage`, leaves the persisted state unmodified, and leaves the
filesystem untouched (in particular the training subprocess and the
augmentation routine are not invoked, for any `gdGen` and any exit code). -/
theorem acceptImage_invalid_rejected (srcDir : String) (gdGen : FS → FS)
    (i : PImage) (te : Int) (st : C3State) (fs : FS)
    (h : passesVerify i = false) :
    acceptImage srcDir gdGen (some i) te st fs = (some .invalidImage, st, fs) := by
  simp [acceptImage, h]

/-- Witness for C2: a concrete image whose `verify()` raises is rejected
with `InvalidImage` and nothing changes. -/
theorem acceptImage_invalid_rejected_witness :
    acceptImage "/s" id (some imgRaises) 0 st0 emptyFS = (some .invalidImage, st0, emptyFS) :=
  acceptImage_invalid_rejected "/s" id imgRaises 0 st0 emptyFS rfl

/-- Claim C9: `acceptImage` raises `InvalidImage` exactly when `verify()`
raises or returns a falsy value (including `None`, PIL's success value);
it proceeds past validation (writing the canonical input file and running
the augmentation) only when `verify()` returns a truthy value, after which
it stops at the unimported `subprocess` name. -/
theorem acceptImage_verify_gate (srcDir : String) (gdGen : FS → FS)
    (i : PImage) (te : Int) (st : C3State) (fs : FS) :
    ((acceptImage srcDir gdGen (some i) te st fs).1 = some .invalidImage ↔
      passesVerify i = false) ∧
    (passesVerify i = false →
      acceptImage srcDir gdGen (some i) te st fs = (some .invalidImage, st, fs)) ∧
    (passesVerify i = true →
      acceptImage srcDir gdGen (some i) te st fs =
        (some .nameError, st,
          gdGen (fs.writeFile (inputImageAbsPath srcDir) (i.encode standardImgFormat)))) := by
  cases hp : passesVerify i <;> simp [acceptImage, hp]

/-- Witness for C9: the image whose `verify()` returns `None` (PIL's
success value) is rejected as invalid. -/
theorem acceptImage_verify_gate_witness :
    acceptImage "/s" id (some imgVerifyNone) 0 st0 emptyFS = (some .invalidImage, st0, emptyFS) :=
  (acceptImage_verify_gate "/s" id imgVerifyNone 0 st0 emptyFS).2.1 rfl

/-- Claim C1 (code bug): for a verified image and a non-zero exit code of
the external training script, `acceptImage` raises `NameError` — not
`TrainingFailed` — because `main.py` never imports `subprocess`; the
persisted state is indeed left at its pre-call value and `gatherState`
does not run. -/
theorem acceptImage_nonzero_exit (srcDir : String) (gdGen : FS → FS)
    (i : PImage) (te : Int) (st : C3State) (fs : FS)
    (hv : passesVerify i = true) (hte : te ≠ 0) :
    (acceptImage srcDir gdGen (some i) te st fs).1 = some .nameError ∧
    (acceptImage srcDir gdGen (some i) te st fs).1 ≠ some .trainingFailed ∧
    (acceptImage srcDir gdGen (some i) te st fs).2.1 = st := by
  simp [acceptImage, hv]

/-- Witness for C1: a concrete verified image with the trainer exiting 1. -/
theorem acceptImage_nonzero_exit_witness :
    (acceptImage "/s" id (some imgTruthy) 1 st0 emptyFS).1 = some .nameError ∧
    (acceptImage "/s" id (some imgTruthy) 1 st0 emptyFS).1 ≠ some .trainingFailed ∧
    (acceptImage "/s" id (some imgTruthy) 1 st0 emptyFS).2.1 = st0 :=
  acceptImage_nonzero_exit "/s" id imgTruthy 1 st0 emptyFS rfl (by decide)

/-- Claim C3 (code bug): no `acceptImage` call returns without raising —
`None` raises `PillowImageRequired`, a failing verification raises
`InvalidImage`, and a verified image reaches the `subprocess.run` line,
where the unimported `subprocess` name raises `NameError` — so the
success postconditions of the claim are unreachable. -/
theorem acceptImage_never_returns_normally (srcDir : String) (gdGen : FS → FS)
    (img : Option PImage) (te : Int) (st : C3State) (fs : FS) :
    (acceptImage srcDir gdGen img te st fs).1.isSome = true := by
  match img with
  | none => rfl
  | some i => cases hp : passesVerify i <;> simp [acceptImage, hp]

/-- Claim C7: after `initState` (with a present state handle) the four
working directories exist, whatever the initial filesystem, and a second
run creates nothing new (create-if-absent is idempotent on the directory
set). -/
theorem initState_dirs_exist_idempotent (decode : Bytes → PImage)
    (cwd srcDir : String) (st : C3State) (fs : FS) :
    ((theFourDirs cwd).all
        (fun d => ((initState decode cwd srcDir (some st) fs).2).pathExists d) = true) ∧
    ((initState decode cwd srcDir (some st)
        ((initState decode cwd srcDir (some st) fs).2)).2.dirs =
      (initState decode cwd srcDir (some st) fs).2.dirs) := by
  obtain ⟨nw, ai⟩ := st
  obtain ⟨e1, e2, e3, e4⟩ := mkAllDirs_pathExists cwd fs
  match ai with
  | none =>
    rw [initState_aug_absent]
    have w1 := pathExists_writeFile_mono (oldNetworkAbsPath srcDir) _ (nw.getD []) _ e1
    have w2 := pathExists_writeFile_mono (oldNetworkAbsPath srcDir) _ (nw.getD []) _ e2
    have w3 := pathExists_writeFile_mono (oldNetworkAbsPath srcDir) _ (nw.getD []) _ e3
    have w4 := pathExists_writeFile_mono (oldNetworkAbsPath srcDir) _ (nw.getD []) _ e4
    constructor
    · simp only [theFourDirs, List.all_cons, List.all_nil, Bool.and_true, Bool.and_eq_true]
      exact ⟨w1, w2, w3, w4⟩
    · simp only [initState_aug_absent, writeBytesToFile]
      rw [mkAllDirs_id cwd _ w1 w2 w3 w4]
      rfl
  | some [] =>
    rw [initState_aug_empty]
    have w1 := pathExists_writeFile_mono (oldNetworkAbsPath srcDir) _ (nw.getD []) _ e1
    have w2 := pathExists_writeFile_mono (oldNetworkAbsPath srcDir) _ (nw.getD []) _ e2
    have w3 := pathExists_writeFile_mono (oldNetworkAbsPath srcDir) _ (nw.getD []) _ e3
    have w4 := pathExists_writeFile_mono (oldNetworkAbsPath srcDir) _ (nw.getD []) _ e4
    constructor
    · simp only [theFourDirs, List.all_cons, List.all_nil, Bool.and_true, Bool.and_eq_true]
      exact ⟨w1, w2, w3, w4⟩
    · simp only [initState_aug_empty, writeBytesToFile]
      rw [mkAllDirs_id cwd _ w1 w2 w3 w4]
      rfl
  | some (b :: rest) =>
    rw [initState_aug_cons]
    constructor
    · simp only [theFourDirs, List.all_cons, List.all_nil, Bool.and_true, Bool.and_eq_true]
      exact ⟨e1, e2, e3, e4⟩
    · simp only [initState_aug_cons]
      rw [mkAllDirs_id cwd _ e1 e2 e3 e4]

/-- Claim C8 (amended): when the `aug_images` rehydration does not abort
(the key is absent, or the sequence is empty), `initState` completes and
the old-network file holds the bytes of the `network` key, or the empty
byte sequence when the key is absent (`Option.getD []` covers both). -/
theorem initState_network_write (decode : Bytes → PImage) (cwd srcDir : String)
    (nw : Option Bytes) (fs : FS) :
    ((initState decode cwd srcDir (some ⟨nw, none⟩) fs).1 = none ∧
     (initState decode cwd srcDir (some ⟨nw, none⟩) fs).2.readFile
        (oldNetworkAbsPath srcDir) = some (nw.getD [])) ∧
    ((initState decode cwd srcDir (some ⟨nw, some []⟩) fs).1 = none ∧
     (initState decode cwd srcDir (some ⟨nw, some []⟩) fs).2.readFile
        (oldNetworkAbsPath srcDir) = some (nw.getD [])) := by
  refine ⟨⟨rfl, ?_⟩, ⟨rfl, ?_⟩⟩ <;>
    simp [initState_aug_absent, initState_aug_empty, writeBytesToFile,
      readFile_writeFile_self]

/-- Counterexample for C8 as stated: a state whose `network` key is
present but whose `aug_images` is nonempty makes `initState` abort with a
`TypeError` before reaching the network write, so the old-network file is
never written. -/
theorem initState_network_write_counterexample :
    (initState dec0 "/w" "/s" (some ⟨some [1], some [[2]]⟩) emptyFS).1 = some .typeError ∧
    (initState dec0 "/w" "/s" (some ⟨some [1], some [[2]]⟩) emptyFS).2.readFile
      (oldNetworkAbsPath "/s") = none :=
  ⟨rfl, rfl⟩

/-- Claim C4 (amended): the rehydrate-then-gather round trip reproduces
the `aug_images` byte content only for the empty sequence; for any
nonempty sequence `initState` aborts with a `TypeError` (an integer index
concatenated onto the path string), so the round trip cannot run.
Moreover, even a file bearing the defective dot-less suffix (a name such
as `0JPEG`) under the augmented directory would be excluded by
`gatherState`'s `.JPEG` substring filter. -/
theorem rehydrate_gather_roundtrip :
    (∀ (decode : Bytes → PImage) (nw : Option Bytes) (wts : Bytes),
      rehydrateThenGather decode "/app" "/app" ⟨nw, some []⟩
          ⟨[], [(newNetworkAbsPath "/app", wts)]⟩ =
        (none, ⟨some wts, some []⟩)) ∧
    (∀ (decode : Bytes → PImage) (cwd srcDir : String) (nw : Option Bytes)
        (b : Bytes) (bs : List Bytes) (fs : FS),
      (initState decode cwd srcDir (some ⟨nw, some (b :: bs)⟩) fs).1 =
        some .typeError) ∧
    (isAugJPEGFile "/app" (augAbsPath "/app" ++ sep ++ "0" ++ standardImgFormat) = false) := by
  refine ⟨fun _ _ _ => rfl, fun decode cwd srcDir nw b bs fs => ?_, rfl⟩
  rw [initState_aug_cons]

/-- Counterexample for C4 as stated: rehydrating a state with one
augmented image raises `TypeError`, so the round trip yields no gathered
sequence, and no file was even written for the entry. -/
theorem rehydrate_gather_roundtrip_counterexample :
    rehydrateThenGather dec0 "/app" "/app" ⟨none, some [[7]]⟩ emptyFS =
      (some .typeError, ⟨none, some [[7]]⟩) ∧
    (initState dec0 "/app" "/app" (some ⟨none, some [[7]]⟩) emptyFS).2.files = [] :=
  ⟨rfl, rfl⟩

/-- Claim C5 (amended): the destination-filename expression of the
rehydration loop concatenates the path, the raw integer index and the
format suffix with no separator; because the index is an integer, Python's
`+` raises `TypeError` there, `initState` aborts for every nonempty
`aug_images`, and no rehydrated file is written.  Had the index been a
string, the expression would have produced the dot-less name
`.../0JPEG`. -/
theorem rehydrate_filename_type_error :
    (∀ (srcDir : String) (idx : Nat),
      rehydrateDest srcDir idx = .error .typeError) ∧
    (∀ (decode : Bytes → PImage) (cwd srcDir : String) (nw : Option Bytes)
        (b : Bytes) (bs : List Bytes) (fs : FS),
      initState decode cwd srcDir (some ⟨nw, some (b :: bs)⟩) fs =
        (some .typeError, mkAllDirs cwd fs)) ∧
    ((pyAdd (.vstr (augAbsPath "/app" ++ sep)) (.vstr "0")).bind
        (fun v => pyAdd v (.vstr standardImgFormat)) =
      .ok (.vstr "/app/tmp/aug_64x64/0JPEG")) :=
  ⟨rehydrateDest_typeError, fun decode cwd srcDir nw b bs fs =>
    initState_aug_cons decode cwd srcDir nw b bs fs, rfl⟩

/-- Counterexample for C5 as stated: with one entry to rehydrate,
`initState` raises `TypeError` and writes no file at all — in particular
no file named with the `0JPEG` suffix exists afterwards. -/
theorem rehydrate_filename_counterexample :
    (initState dec0 "/c" "/s" (some ⟨none, some [[9]]⟩) emptyFS).1 = some .typeError ∧
    (initState dec0 "/c" "/s" (some ⟨none, some [[9]]⟩) emptyFS).2.files = [] :=
  ⟨rfl, rfl⟩

/-- Claim C10: `initState` creates the four working directories at
cwd-resolved relative paths, while every file read and write is anchored
at the source file's directory; a created directory coincides with the
corresponding directory used for file I/O exactly when the current
working directory equals the source directory. -/
theorem initState_path_anchoring (decode : Bytes → PImage)
    (cwd srcDir : String) (nw : Option Bytes) (fs : FS) :
    ((initState decode cwd srcDir (some ⟨nw, none⟩) fs).2.dirs.all
        (fun d => fs.dirs.contains d || (theFourDirs cwd).contains d) = true) ∧
    (theFourDirs cwd = [cwd ++ sep ++ inputRelPath, cwd ++ sep ++ augRelPath,
        cwd ++ sep ++ unaugRelPath, cwd ++ sep ++ networkRelPath]) ∧
    ((initState decode cwd srcDir (some ⟨nw, none⟩) fs).2.files =
        (oldNetworkAbsPath srcDir, nw.getD []) ::
          fs.files.filter (fun e => !(e.1 == oldNetworkAbsPath srcDir))) ∧
    (oldNetworkAbsPath srcDir = srcDir ++ sep ++ networkRelPath ++ sep ++ "old.net") ∧
    (inputImageAbsPath srcDir =
        srcDir ++ sep ++ inputRelPath ++ sep ++ "input." ++ standardImgFormat) ∧
    ((resolve cwd inputRelPath = inputAbsPath srcDir ↔ cwd = srcDir) ∧
     (resolve cwd augRelPath = augAbsPath srcDir ↔ cwd = srcDir) ∧
     (resolve cwd unaugRelPath = unaugAbsPath srcDir ↔ cwd = srcDir) ∧
     (resolve cwd networkRelPath = networkAbsPath srcDir ↔ cwd = srcDir)) := by
  refine ⟨?_, ?_, ?_, rfl, rfl, ?_, ?_, ?_, ?_⟩
  · simp only [initState_aug_absent, writeBytesToFile, dirs_writeFile]
    refine dirs_all_mkAllDirs cwd fs _ ?_ ?_ ?_ ?_ ?_
    · refine List.all_eq_true.mpr fun d hd => ?_
      simpa using Or.inl hd
    · simp [theFourDirs]
    · simp [theFourDirs]
    · simp [theFourDirs]
    · simp [theFourDirs]
  · rfl
  · simp only [initState_aug_absent, writeBytesToFile, FS.writeFile, files_mkAllDirs]
  · exact resolve_rel_eq_abs_iff cwd srcDir inputRelPath rfl
  · exact resolve_rel_eq_abs_iff cwd srcDir augRelPath rfl
  · exact resolve_rel_eq_abs_iff cwd srcDir unaugRelPath rfl
  · exact resolve_rel_eq_abs_iff cwd srcDir networkRelPath rfl

end Eyescream
